import Mathlib

/-!
Shallow embedding of the RV alarm controller state machine, translated from
`alarm/alarm.py` (the gpiozero variant; `rvalarm/alarm.py` is its predecessor
and is embedded only where a claim cites it, namely the loop-counter update).

Modelling conventions:
- Times (`LoopTime`, `AlarmTime`, ...) are Python floats; they are embedded
  as rationals, with subtraction and `>` comparisons kept as in the source.
- Physical inputs read inside a cycle (button levels, the PIR level, and the
  boolean result of `_bikewire_error_chk`) are passed in as an `Inputs`
  record; the source reads them from GPIO.
- Physical outputs (`red_led`, `blue_led`, `buzzer`, `horn`) are booleans in
  the state record; `device.on()` sets true, `device.off()` sets false and
  `_toggle` negates, exactly as the gpiozero devices behave.
- The night-time dimming branch of `_display` drives the LED identically in
  both branches (`self.red_led.on()` either way), so it is not modelled.
- Debug-level printing/logging and the `debuglevel == 10` internal-test path
  have no effect on the modelled state and are omitted.
-/

namespace RVAlarm

/-- Embedding of `class States(Enum)` from `alarm/alarm.py`. -/
inductive States where
  | OFF
  | ON
  | STARTING
  | STARTERROR
  | TRIGDELAY
  | TRIGGERED
  | SILENCED
  deriving DecidableEq, Repr

/-- Embedding of `class AlarmTypes(Enum)` from `alarm/alarm.py`. -/
inductive AlarmTypes where
  | Interior
  | Bike
  deriving DecidableEq, Repr

/-- Embedding of `Alarm.StateConsts`: per-state `[light, buzzer, horn]` weight triple.
Weight meaning per the source comment: 0 = off; 1 = on; 4 = slow blink;
16 = fast blink. -/
def StateConsts : States → Nat × Nat × Nat
  | .OFF        => (0, 0, 0)
  | .STARTING   => (4, 4, 0)
  | .STARTERROR => (16, 16, 0)
  | .ON         => (1, 0, 0)
  | .TRIGDELAY  => (16, 16, 0)
  | .TRIGGERED  => (16, 16, 1)
  | .SILENCED   => (16, 16, 0)

/-- Constant `ENTRYEXITDELAY = int(30)` — seconds of arming / entry grace. -/
def ENTRYEXITDELAY : ℚ := 30

/-- Constant `FASTBLINK = int(1)`. -/
def FASTBLINK : Nat := 1

/-- Constant `SLOWBLINK = int(6 * FASTBLINK)`. -/
def SLOWBLINK : Nat := 6 * FASTBLINK

/-- Constant `MAXALARMTIME = int(2)` — max minutes the alarm may sound
(`alarm/alarm.py`; the `rvalarm` predecessor uses 1). -/
def MAXALARMTIME : ℚ := 2

/-- Constant `LOOPDELAY = float(.3)` — seconds between loop iterations. -/
def LOOPDELAY : ℚ := 3 / 10

/-- Constant `LOUDENABLE = True`. -/
def LOUDENABLE : Bool := true

/-- Constant `BUTTONDELAY = 1` — local constant of `_check_buttons`, seconds before a
button press is registered again. -/
def BUTTONDELAY : ℚ := 1

/-- The mutable fields of `class Alarm` (class variables holding live state)
together with the boolean states of the four annunciator output devices. -/
structure Alarm where
  AlarmTime      : ℚ
  BikeState      : States
  BikeTime       : ℚ
  InteriorState  : States
  InteriorTime   : ℚ
  LastButtonTime : ℚ
  LoopTime       : ℚ
  LoopCount      : Nat
  RedPWMVal      : Nat
  BluePWMVal     : Nat
  red_led        : Bool
  blue_led       : Bool
  buzzer         : Bool
  horn           : Bool
  deriving DecidableEq, Repr

/-- Inputs sampled from GPIO during one cycle: the two button levels, the PIR
level (`pir_sensor.is_active`), and the boolean returned by
`_bikewire_error_chk` (true when a tamper fault is detected). -/
structure Inputs where
  red_button      : Bool
  blue_button     : Bool
  pir_is_active   : Bool
  bike_wire_fault : Bool
  deriving DecidableEq, Repr

/-- Embedding of `Alarm.set_state`: write a channel's state, recording the channel entry
time when the new state is `STARTING`. -/
def set_state (s : Alarm) (state_var : AlarmTypes) (state_val : States) : Alarm :=
  match state_var with
  | .Interior =>
      let s := { s with InteriorState := state_val }
      if state_val = States.STARTING then { s with InteriorTime := s.LoopTime } else s
  | .Bike =>
      let s := { s with BikeState := state_val }
      if state_val = States.STARTING then { s with BikeTime := s.LoopTime } else s

/-- Embedding of `Alarm.get_state`. -/
def get_state (s : Alarm) (state_var : AlarmTypes) : States :=
  match state_var with
  | .Interior => s.InteriorState
  | .Bike => s.BikeState

/-- Embedding of `Alarm._check_bike_wire`: with the boolean result of
`_bikewire_error_chk` passed in as `fault`. -/
def check_bike_wire (s : Alarm) (fault : Bool) : Alarm :=
  if (s.BikeState = States.ON ∨ s.BikeState = States.STARTING) ∧ fault = true then
    if s.BikeState = States.STARTING then
      set_state s .Bike States.STARTERROR
    else
      let s := set_state s .Bike States.TRIGGERED
      { s with AlarmTime := s.LoopTime }
  else s

/-- Embedding of `Alarm._check_interior`: with `pir_sensor.is_active` passed in; with
pull-up wiring, `is_active = false` means movement detected. -/
def check_interior (s : Alarm) (pir_is_active : Bool) : Alarm :=
  if s.InteriorState = States.STARTING ∧ pir_is_active = false then
    set_state s .Interior States.STARTERROR
  else if s.InteriorState = States.ON ∧ pir_is_active = false then
    let s := set_state s .Interior States.TRIGDELAY
    { s with AlarmTime := s.LoopTime }
  else s

/-- The red-button block of `Alarm._check_buttons`. `NowTime` is
`self.LoopTime`, which the block never modifies. -/
def check_buttons_red (s : Alarm) (RedButton : Bool) : Alarm :=
  if RedButton = true ∧ s.LoopTime - s.LastButtonTime > BUTTONDELAY then
    let s' :=
      if s.InteriorState = States.OFF then
        set_state s .Interior States.STARTING
      else
        set_state s .Interior States.OFF
    { s' with LastButtonTime := s.LoopTime }
  else s

/-- The blue-button block of `Alarm._check_buttons`, run on the state left
by the red-button block (so it sees an updated `LastButtonTime`). -/
def check_buttons_blue (s : Alarm) (BlueButton : Bool) : Alarm :=
  if BlueButton = true ∧ s.LoopTime - s.LastButtonTime > BUTTONDELAY then
    let s' :=
      if s.BikeState = States.OFF then
        set_state s .Bike States.STARTING
      else
        set_state s .Bike States.OFF
    { s' with LastButtonTime := s.LoopTime }
  else s

/-- Embedding of `Alarm._check_buttons`: debounced arm/disarm toggles. Both buttons share
the single `LastButtonTime` debounce clock, and the red (Interior) button is
processed before the blue (Bike) one. -/
def check_buttons (s : Alarm) (RedButton BlueButton : Bool) : Alarm :=
  check_buttons_blue (check_buttons_red s RedButton) BlueButton

/-- The Interior if/elif chain of `Alarm._update_timed_transitions`. -/
def update_timed_interior (s : Alarm) : Alarm :=
  if (s.InteriorState = States.STARTING ∨ s.InteriorState = States.STARTERROR) ∧
      s.LoopTime - s.InteriorTime > ENTRYEXITDELAY then
    set_state s .Interior States.ON
  else if s.InteriorState = States.TRIGDELAY ∧
      s.LoopTime - s.AlarmTime > ENTRYEXITDELAY then
    set_state s .Interior States.TRIGGERED
  else if s.InteriorState = States.TRIGGERED ∧
      s.LoopTime - s.AlarmTime > 60 * MAXALARMTIME then
    set_state s .Interior States.SILENCED
  else s

/-- The Bike if/elif chain of `Alarm._update_timed_transitions`, run on the
state left by the Interior chain. -/
def update_timed_bike (s : Alarm) : Alarm :=
  if (s.BikeState = States.STARTING ∨ s.BikeState = States.STARTERROR) ∧
      s.LoopTime - s.BikeTime > ENTRYEXITDELAY then
    set_state s .Bike States.ON
  else if s.BikeState = States.TRIGGERED ∧
      s.LoopTime - s.AlarmTime > 60 * MAXALARMTIME then
    set_state s .Bike States.SILENCED
  else s

/-- Embedding of `Alarm._update_timed_transitions`: elapsed-time driven transitions,
Interior first, then Bike. -/
def update_timed_transitions (s : Alarm) : Alarm :=
  update_timed_bike (update_timed_interior s)

/-- The per-channel light section of `_display`: light weight 0 switches the
LED off, weight 1 switches it on (the night-time dimming branch drives the
LED identically in both of its arms and is elided), any other weight leaves
it alone here. -/
def display_lights (s : Alarm) : Alarm :=
  let IntState := StateConsts s.InteriorState
  let BkState := StateConsts s.BikeState
  let s' :=
    if IntState.1 = 0 then { s with red_led := false }
    else if IntState.1 = 1 then { s with red_led := true }
    else s
  if BkState.1 = 0 then { s' with blue_led := false }
  else if BkState.1 = 1 then { s' with blue_led := true }
  else s'

/-- The steady buzzer/horn section of `_display`: combined value 0 switches
the device off, combined value 1 switches it on (when `LOUDENABLE`), any
other value leaves it alone here. -/
def display_steady (s : Alarm) : Alarm :=
  let BuzzerVal := (StateConsts s.InteriorState).2.1 + (StateConsts s.BikeState).2.1
  let AlarmVal := (StateConsts s.InteriorState).2.2 + (StateConsts s.BikeState).2.2
  let s' :=
    if BuzzerVal = 0 then { s with buzzer := false }
    else if BuzzerVal = 1 then
      (if LOUDENABLE then { s with buzzer := true } else s)
    else s
  if AlarmVal = 0 then { s' with horn := false }
  else if AlarmVal = 1 then
    (if LOUDENABLE then { s' with horn := true } else s')
  else s'

/-- The blink section of `_display`: on a slow-blink cycle
(`LoopCount % SLOWBLINK == 0`) the weights are tested against 2, otherwise
on a fast-blink cycle (`LoopCount % FASTBLINK == 0`, i.e. always, since
`FASTBLINK = 1`) against 8; the buzzer and horn are toggled, while the LEDs
are merely switched on ("simplified for gpiozero" in the source). -/
def display_blink (s : Alarm) : Alarm :=
  let IntLight := (StateConsts s.InteriorState).1
  let BkLight := (StateConsts s.BikeState).1
  let BuzzerVal := (StateConsts s.InteriorState).2.1 + (StateConsts s.BikeState).2.1
  let AlarmVal := (StateConsts s.InteriorState).2.2 + (StateConsts s.BikeState).2.2
  if BuzzerVal > 1 ∨ AlarmVal > 1 ∨ IntLight > 1 ∨ BkLight > 1 then
    if s.LoopCount % SLOWBLINK = 0 then
      let s1 :=
        if IntLight > 2 then
          { s with RedPWMVal := (s.RedPWMVal + 50) % 100, red_led := true }
        else s
      let s2 :=
        if BkLight > 2 then
          { s1 with BluePWMVal := (s1.BluePWMVal + 50) % 100, blue_led := true }
        else s1
      let s3 :=
        if BuzzerVal > 2 then
          (if LOUDENABLE then { s2 with buzzer := !s2.buzzer } else s2)
        else s2
      if AlarmVal > 2 then
        (if LOUDENABLE then { s3 with horn := !s3.horn } else s3)
      else s3
    else if s.LoopCount % FASTBLINK = 0 then
      let s1 :=
        if IntLight > 8 then
          { s with RedPWMVal := (s.RedPWMVal + 50) % 100, red_led := true }
        else s
      let s2 :=
        if BkLight > 8 then
          { s1 with BluePWMVal := (s1.BluePWMVal + 50) % 100, blue_led := true }
        else s1
      let s3 :=
        if BuzzerVal > 8 then
          (if LOUDENABLE then { s2 with buzzer := !s2.buzzer } else s2)
        else s2
      if AlarmVal > 8 then
        (if LOUDENABLE then { s3 with horn := !s3.horn } else s3)
      else s3
    else s
  else s

/-- Embedding of `Alarm._display` from `alarm/alarm.py`: drive the two LEDs directly from
the per-channel light weight, then combine the two channels' buzzer and horn
weights by summation and drive the shared buzzer and horn, with the blink
section last. In this gpiozero variant the blink branches call
`red_led.on()` / `blue_led.on()` (commented "simplified for gpiozero")
rather than toggling, while the buzzer and horn use `_toggle`. -/
def display (s : Alarm) : Alarm :=
  display_blink (display_steady (display_lights s))

/-- One iteration of the `while True` body of `run_alarm_infinite` in
`alarm/alarm.py` (the non-debug path), with the wall-clock time returned by
`time.time()` and the sampled inputs passed in. -/
def loop_step (s : Alarm) (now : ℚ) (inp : Inputs) : Alarm :=
  let s :=
    if s.InteriorState = States.OFF ∧ s.BikeState = States.OFF ∧ s.LoopCount > 10000 then
      { s with LoopCount := 1 }
    else
      { s with LoopCount := s.LoopCount + 1 }
  let s := { s with LoopTime := now }
  let s := check_buttons s inp.red_button inp.blue_button
  let s := check_bike_wire s inp.bike_wire_fault
  let s := check_interior s inp.pir_is_active
  let s := update_timed_transitions s
  display s

/-- The loop-counter housekeeping of `run_alarm_infinite` in `alarm/alarm.py`
in isolation: reset to 1 only when both channels are `OFF` AND the counter
exceeds 10000; otherwise increment. -/
def alarm_loop_count_update (interior bike : States) (count : Nat) : Nat :=
  if interior = States.OFF ∧ bike = States.OFF ∧ count > 10000 then 1
  else count + 1

/-- The loop-counter housekeeping of `run_alarm_infinite` in
`rvalarm/alarm.py`: reset to 1 whenever both channels are `OFF`; otherwise
increment. -/
def rvalarm_loop_count_update (interior bike : States) (count : Nat) : Nat :=
  if interior = States.OFF ∧ bike = States.OFF then 1
  else count + 1

/-- A baseline state with both channels `OFF`, all clocks zero and all
outputs off, used to build concrete test states. -/
def s0 : Alarm :=
  { AlarmTime := 0, BikeState := States.OFF, BikeTime := 0,
    InteriorState := States.OFF, InteriorTime := 0, LastButtonTime := 0,
    LoopTime := 0, LoopCount := 0, RedPWMVal := 0, BluePWMVal := 0,
    red_led := false, blue_led := false, buzzer := false, horn := false }

/-! ### Helper lemmas -/

/-- Lemma: `set_state` on the Interior channel as a record update. -/
theorem set_state_Interior_eq (s : Alarm) (v : States) :
    set_state s .Interior v =
      { s with InteriorState := v,
               InteriorTime :=
                 if v = States.STARTING then s.LoopTime else s.InteriorTime } := by
  simp only [set_state]
  split <;> simp_all

/-- Lemma: `set_state` on the Bike channel as a record update. -/
theorem set_state_Bike_eq (s : Alarm) (v : States) :
    set_state s .Bike v =
      { s with BikeState := v,
               BikeTime :=
                 if v = States.STARTING then s.LoopTime else s.BikeTime } := by
  simp only [set_state]
  split <;> simp_all

/-- Lemma: `_check_bike_wire` with the channel not armed (neither `ON` nor
`STARTING`) is a no-op, whatever the tamper input. -/
theorem check_bike_wire_not_armed (s : Alarm) (fault : Bool)
    (h1 : s.BikeState ≠ States.ON) (h2 : s.BikeState ≠ States.STARTING) :
    check_bike_wire s fault = s := by
  simp [check_bike_wire, h1, h2]

/-- Lemma: `_check_bike_wire` with no fault detected is a no-op. -/
theorem check_bike_wire_no_fault (s : Alarm) :
    check_bike_wire s false = s := by
  simp [check_bike_wire]

/-- Lemma: `_check_bike_wire` never touches the Interior channel, the clocks or the
outputs; it can only write `BikeState` and `AlarmTime`. -/
theorem check_bike_wire_frame (s : Alarm) (fault : Bool) :
    (check_bike_wire s fault).InteriorState = s.InteriorState ∧
    (check_bike_wire s fault).InteriorTime = s.InteriorTime ∧
    (check_bike_wire s fault).BikeTime = s.BikeTime ∧
    (check_bike_wire s fault).LoopTime = s.LoopTime ∧
    (check_bike_wire s fault).LastButtonTime = s.LastButtonTime ∧
    (check_bike_wire s fault).LoopCount = s.LoopCount := by
  unfold check_bike_wire
  split_ifs <;> simp [set_state_Bike_eq]

/-- Lemma: `_check_interior` with the channel neither `STARTING` nor `ON` is a
no-op, whatever the PIR input. -/
theorem check_interior_not_armed (s : Alarm) (pir : Bool)
    (h1 : s.InteriorState ≠ States.STARTING) (h2 : s.InteriorState ≠ States.ON) :
    check_interior s pir = s := by
  simp [check_interior, h1, h2]

/-- Lemma: `_check_interior` never touches the Bike channel, the entry clocks or
the outputs; it can only write `InteriorState` and `AlarmTime`. -/
theorem check_interior_frame (s : Alarm) (pir : Bool) :
    (check_interior s pir).BikeState = s.BikeState ∧
    (check_interior s pir).BikeTime = s.BikeTime ∧
    (check_interior s pir).InteriorTime = s.InteriorTime ∧
    (check_interior s pir).LoopTime = s.LoopTime ∧
    (check_interior s pir).LastButtonTime = s.LastButtonTime ∧
    (check_interior s pir).LoopCount = s.LoopCount := by
  unfold check_interior
  split_ifs <;> simp [set_state_Interior_eq]

/-- The red-button block as a single conditional record update. -/
theorem check_buttons_red_eq (s : Alarm) (r : Bool) :
    check_buttons_red s r =
      if r = true ∧ s.LoopTime - s.LastButtonTime > BUTTONDELAY then
        { s with
            InteriorState :=
              if s.InteriorState = States.OFF then States.STARTING else States.OFF,
            InteriorTime :=
              if s.InteriorState = States.OFF then s.LoopTime else s.InteriorTime,
            LastButtonTime := s.LoopTime }
      else s := by
  unfold check_buttons_red
  split_ifs <;> simp_all [set_state_Interior_eq]

/-- The blue-button block as a single conditional record update. -/
theorem check_buttons_blue_eq (s : Alarm) (b : Bool) :
    check_buttons_blue s b =
      if b = true ∧ s.LoopTime - s.LastButtonTime > BUTTONDELAY then
        { s with
            BikeState :=
              if s.BikeState = States.OFF then States.STARTING else States.OFF,
            BikeTime :=
              if s.BikeState = States.OFF then s.LoopTime else s.BikeTime,
            LastButtonTime := s.LoopTime }
      else s := by
  unfold check_buttons_blue
  split_ifs <;> simp_all [set_state_Bike_eq]

/-- Lemma: `_check_buttons` never touches the loop clock, the loop counter, the
alarm clock or the outputs. -/
theorem check_buttons_frame (s : Alarm) (r b : Bool) :
    (check_buttons s r b).LoopTime = s.LoopTime ∧
    (check_buttons s r b).LoopCount = s.LoopCount ∧
    (check_buttons s r b).AlarmTime = s.AlarmTime := by
  unfold check_buttons
  rw [check_buttons_red_eq, check_buttons_blue_eq]
  split_ifs <;> simp_all

/-- If the red press does not register (button up, or within the debounce
window), `_check_buttons` leaves the Interior channel alone. -/
theorem check_buttons_interior_of_not_red (s : Alarm) (r b : Bool)
    (h : ¬(r = true ∧ s.LoopTime - s.LastButtonTime > BUTTONDELAY)) :
    (check_buttons s r b).InteriorState = s.InteriorState ∧
    (check_buttons s r b).InteriorTime = s.InteriorTime := by
  unfold check_buttons
  rw [check_buttons_red_eq, if_neg h, check_buttons_blue_eq]
  split_ifs <;> simp

/-- If the blue press would not register against the pre-cycle debounce
clock, the Bike channel is left alone — whether or not the red press
registers first (a registered red press moves the shared clock to the loop
time, after which the blue test fails anyway since `0 > 1` is false). -/
theorem check_buttons_bike_of_not_blue (s : Alarm) (r b : Bool)
    (h : ¬(b = true ∧ s.LoopTime - s.LastButtonTime > BUTTONDELAY)) :
    (check_buttons s r b).BikeState = s.BikeState ∧
    (check_buttons s r b).BikeTime = s.BikeTime := by
  have h0 : ¬ (BUTTONDELAY < (0 : ℚ)) := by norm_num [BUTTONDELAY]
  unfold check_buttons
  rw [check_buttons_red_eq]
  by_cases h1 : r = true ∧ s.LoopTime - s.LastButtonTime > BUTTONDELAY
  · rw [if_pos h1]
    simp [check_buttons_blue_eq, eq_false h0]
  · rw [if_neg h1]
    simp [check_buttons_blue_eq, eq_false h]

/-- A registered red press toggles the Interior channel (`OFF → STARTING`
recording the entry time, anything else `→ OFF`), moves the shared debounce
clock to the current loop time, and leaves the Bike channel alone (the
shared clock just moved, so the blue test fails). -/
theorem check_buttons_red_registered (s : Alarm) (r b : Bool)
    (hr : r = true) (ht : s.LoopTime - s.LastButtonTime > BUTTONDELAY) :
    (check_buttons s r b).InteriorState =
      (if s.InteriorState = States.OFF then States.STARTING else States.OFF) ∧
    (check_buttons s r b).InteriorTime =
      (if s.InteriorState = States.OFF then s.LoopTime else s.InteriorTime) ∧
    (check_buttons s r b).LastButtonTime = s.LoopTime ∧
    (check_buttons s r b).BikeState = s.BikeState ∧
    (check_buttons s r b).BikeTime = s.BikeTime := by
  have h0 : ¬ (BUTTONDELAY < (0 : ℚ)) := by norm_num [BUTTONDELAY]
  unfold check_buttons
  rw [check_buttons_red_eq, if_pos ⟨hr, ht⟩]
  simp [check_buttons_blue_eq, eq_false h0]

/-- With the red button up, a registered blue press toggles the Bike channel
(`OFF → STARTING` recording the entry time, anything else `→ OFF`) and
moves the shared debounce clock. -/
theorem check_buttons_blue_registered (s : Alarm) (b : Bool)
    (hb : b = true) (ht : s.LoopTime - s.LastButtonTime > BUTTONDELAY) :
    (check_buttons s false b).BikeState =
      (if s.BikeState = States.OFF then States.STARTING else States.OFF) ∧
    (check_buttons s false b).BikeTime =
      (if s.BikeState = States.OFF then s.LoopTime else s.BikeTime) ∧
    (check_buttons s false b).LastButtonTime = s.LoopTime ∧
    (check_buttons s false b).InteriorState = s.InteriorState ∧
    (check_buttons s false b).InteriorTime = s.InteriorTime := by
  unfold check_buttons
  rw [check_buttons_red_eq, if_neg (by simp), check_buttons_blue_eq,
    if_pos ⟨hb, ht⟩]
  simp

/-- Inside the shared debounce window neither press registers:
`_check_buttons` is the identity. -/
theorem check_buttons_in_window (s : Alarm) (r b : Bool)
    (h : s.LoopTime - s.LastButtonTime ≤ BUTTONDELAY) :
    check_buttons s r b = s := by
  have h' : ¬ (s.LoopTime - s.LastButtonTime > BUTTONDELAY) := not_lt.mpr h
  unfold check_buttons
  rw [check_buttons_red_eq, if_neg (fun hc => h' hc.2),
    check_buttons_blue_eq, if_neg (fun hc => h' hc.2)]

/-- The Interior chain of `_update_timed_transitions` as a record update (it
never enters `STARTING`, so `InteriorTime` is untouched). -/
theorem update_timed_interior_eq (s : Alarm) :
    update_timed_interior s =
      { s with InteriorState :=
          if (s.InteriorState = States.STARTING ∨ s.InteriorState = States.STARTERROR) ∧
              s.LoopTime - s.InteriorTime > ENTRYEXITDELAY then States.ON
          else if s.InteriorState = States.TRIGDELAY ∧
              s.LoopTime - s.AlarmTime > ENTRYEXITDELAY then States.TRIGGERED
          else if s.InteriorState = States.TRIGGERED ∧
              s.LoopTime - s.AlarmTime > 60 * MAXALARMTIME then States.SILENCED
          else s.InteriorState } := by
  unfold update_timed_interior
  split_ifs <;> simp [set_state_Interior_eq]

/-- The Bike chain of `_update_timed_transitions` as a record update. -/
theorem update_timed_bike_eq (s : Alarm) :
    update_timed_bike s =
      { s with BikeState :=
          if (s.BikeState = States.STARTING ∨ s.BikeState = States.STARTERROR) ∧
              s.LoopTime - s.BikeTime > ENTRYEXITDELAY then States.ON
          else if s.BikeState = States.TRIGGERED ∧
              s.LoopTime - s.AlarmTime > 60 * MAXALARMTIME then States.SILENCED
          else s.BikeState } := by
  unfold update_timed_bike
  split_ifs <;> simp [set_state_Bike_eq]

/-- Lemma: `_update_timed_transitions` as a simultaneous record update: the Bike
chain's conditions do not depend on anything the Interior chain writes. -/
theorem update_timed_transitions_eq (s : Alarm) :
    update_timed_transitions s =
      { s with
          InteriorState :=
            if (s.InteriorState = States.STARTING ∨ s.InteriorState = States.STARTERROR) ∧
                s.LoopTime - s.InteriorTime > ENTRYEXITDELAY then States.ON
            else if s.InteriorState = States.TRIGDELAY ∧
                s.LoopTime - s.AlarmTime > ENTRYEXITDELAY then States.TRIGGERED
            else if s.InteriorState = States.TRIGGERED ∧
                s.LoopTime - s.AlarmTime > 60 * MAXALARMTIME then States.SILENCED
            else s.InteriorState,
          BikeState :=
            if (s.BikeState = States.STARTING ∨ s.BikeState = States.STARTERROR) ∧
                s.LoopTime - s.BikeTime > ENTRYEXITDELAY then States.ON
            else if s.BikeState = States.TRIGGERED ∧
                s.LoopTime - s.AlarmTime > 60 * MAXALARMTIME then States.SILENCED
            else s.BikeState } := by
  unfold update_timed_transitions
  rw [update_timed_interior_eq, update_timed_bike_eq]

set_option maxHeartbeats 1000000 in
/-- Lemma: `_display` drives outputs only: it never touches the state machine
fields or the clocks. -/
theorem display_frame (s : Alarm) :
    (display s).InteriorState = s.InteriorState ∧
    (display s).BikeState = s.BikeState ∧
    (display s).InteriorTime = s.InteriorTime ∧
    (display s).BikeTime = s.BikeTime ∧
    (display s).AlarmTime = s.AlarmTime ∧
    (display s).LoopTime = s.LoopTime ∧
    (display s).LastButtonTime = s.LastButtonTime ∧
    (display s).LoopCount = s.LoopCount := by
  have hl : ∀ t : Alarm, (display_lights t).InteriorState = t.InteriorState ∧
      (display_lights t).BikeState = t.BikeState ∧
      (display_lights t).InteriorTime = t.InteriorTime ∧
      (display_lights t).BikeTime = t.BikeTime ∧
      (display_lights t).AlarmTime = t.AlarmTime ∧
      (display_lights t).LoopTime = t.LoopTime ∧
      (display_lights t).LastButtonTime = t.LastButtonTime ∧
      (display_lights t).LoopCount = t.LoopCount := by
    intro t
    simp only [display_lights]
    split_ifs <;> simp
  have hs : ∀ t : Alarm, (display_steady t).InteriorState = t.InteriorState ∧
      (display_steady t).BikeState = t.BikeState ∧
      (display_steady t).InteriorTime = t.InteriorTime ∧
      (display_steady t).BikeTime = t.BikeTime ∧
      (display_steady t).AlarmTime = t.AlarmTime ∧
      (display_steady t).LoopTime = t.LoopTime ∧
      (display_steady t).LastButtonTime = t.LastButtonTime ∧
      (display_steady t).LoopCount = t.LoopCount := by
    intro t
    simp only [display_steady]
    split_ifs <;> simp
  have hb : ∀ t : Alarm, (display_blink t).InteriorState = t.InteriorState ∧
      (display_blink t).BikeState = t.BikeState ∧
      (display_blink t).InteriorTime = t.InteriorTime ∧
      (display_blink t).BikeTime = t.BikeTime ∧
      (display_blink t).AlarmTime = t.AlarmTime ∧
      (display_blink t).LoopTime = t.LoopTime ∧
      (display_blink t).LastButtonTime = t.LastButtonTime ∧
      (display_blink t).LoopCount = t.LoopCount := by
    intro t
    obtain ⟨aT, bS, bT, iS, iT, lBT, lT, lC, rP, bP, rl, bl, bz, hn⟩ := t
    simp only [display_blink, LOUDENABLE]
    split_ifs <;> exact ⟨rfl, rfl, rfl, rfl, rfl, rfl, rfl, rfl⟩
  unfold display
  obtain ⟨l1, l2, l3, l4, l5, l6, l7, l8⟩ := hl s
  obtain ⟨s1, s2, s3, s4, s5, s6, s7, s8⟩ := hs (display_lights s)
  obtain ⟨b1, b2, b3, b4, b5, b6, b7, b8⟩ := hb (display_steady (display_lights s))
  exact ⟨by rw [b1, s1, l1], by rw [b2, s2, l2], by rw [b3, s3, l3],
    by rw [b4, s4, l4], by rw [b5, s5, l5], by rw [b6, s6, l6],
    by rw [b7, s7, l7], by rw [b8, s8, l8]⟩

/-- One loop iteration written as a pipeline over a single record update
(the loop-counter housekeeping is exactly `alarm_loop_count_update`). -/
theorem loop_step_eq (s : Alarm) (now : ℚ) (inp : Inputs) :
    loop_step s now inp =
      display (update_timed_transitions (check_interior (check_bike_wire
        (check_buttons
          { s with
              LoopCount := alarm_loop_count_update s.InteriorState s.BikeState s.LoopCount,
              LoopTime := now }
          inp.red_button inp.blue_button)
        inp.bike_wire_fault) inp.pir_is_active)) := by
  unfold loop_step alarm_loop_count_update
  split_ifs <;> rfl

/-- With neither button down, `_check_buttons` is the identity. -/
theorem check_buttons_no_press (s : Alarm) :
    check_buttons s false false = s := by
  unfold check_buttons
  rw [check_buttons_red_eq, if_neg (by simp), check_buttons_blue_eq,
    if_neg (by simp)]

/-- Lemma: `_check_bike_wire` on an armed (`ON`) channel with a fault: straight to
`TRIGGERED`, recording the shared `AlarmTime`. -/
theorem check_bike_wire_on_fault (s : Alarm) (h : s.BikeState = States.ON) :
    check_bike_wire s true =
      { s with BikeState := States.TRIGGERED, AlarmTime := s.LoopTime } := by
  unfold check_bike_wire
  rw [if_pos ⟨Or.inl h, rfl⟩, if_neg (by simp [h])]
  simp [set_state_Bike_eq]

/-- Lemma: `_check_interior` with the PIR line inactive-high (no movement) is a
no-op. -/
theorem check_interior_pir_ok (s : Alarm) :
    check_interior s true = s := by
  simp [check_interior]

/-- The two sensor checks leave the Interior channel alone whenever it is
not armed (`STARTING`/`ON`). -/
theorem sensors_preserve_interior (s : Alarm) (f p : Bool)
    (h1 : s.InteriorState ≠ States.STARTING) (h2 : s.InteriorState ≠ States.ON) :
    (check_interior (check_bike_wire s f) p).InteriorState = s.InteriorState ∧
    (check_interior (check_bike_wire s f) p).InteriorTime = s.InteriorTime ∧
    (check_interior (check_bike_wire s f) p).LoopTime = s.LoopTime := by
  have hbw := check_bike_wire_frame s f
  have hci := check_interior_not_armed (check_bike_wire s f) p
    (by rw [hbw.1]; exact h1) (by rw [hbw.1]; exact h2)
  rw [hci]
  exact ⟨hbw.1, hbw.2.1, hbw.2.2.2.1⟩

/-- The two sensor checks leave the Bike channel alone whenever it is not
armed (`ON`/`STARTING`). -/
theorem sensors_preserve_bike (s : Alarm) (f p : Bool)
    (h1 : s.BikeState ≠ States.ON) (h2 : s.BikeState ≠ States.STARTING) :
    (check_interior (check_bike_wire s f) p).BikeState = s.BikeState ∧
    (check_interior (check_bike_wire s f) p).BikeTime = s.BikeTime ∧
    (check_interior (check_bike_wire s f) p).LoopTime = s.LoopTime := by
  rw [check_bike_wire_not_armed s f h1 h2]
  have hf := check_interior_frame s p
  exact ⟨hf.1, hf.2.1, hf.2.2.2.1⟩

/-- Lemma: `_update_timed_transitions` on a `STARTERROR` Interior channel: to `ON`
exactly when the entry clock has run out, else unchanged. -/
theorem update_timed_interior_starterror (s : Alarm)
    (h : s.InteriorState = States.STARTERROR) :
    (update_timed_transitions s).InteriorState =
      (if s.LoopTime - s.InteriorTime > ENTRYEXITDELAY
        then States.ON else States.STARTERROR) := by
  rw [update_timed_transitions_eq]
  by_cases hc : s.LoopTime - s.InteriorTime > ENTRYEXITDELAY <;> simp [h, hc]

/-- Lemma: `_update_timed_transitions` on a `STARTERROR` Bike channel. -/
theorem update_timed_bike_starterror (s : Alarm)
    (h : s.BikeState = States.STARTERROR) :
    (update_timed_transitions s).BikeState =
      (if s.LoopTime - s.BikeTime > ENTRYEXITDELAY
        then States.ON else States.STARTERROR) := by
  rw [update_timed_transitions_eq]
  by_cases hc : s.LoopTime - s.BikeTime > ENTRYEXITDELAY <;> simp [h, hc]

/-- Lemma: `_update_timed_transitions` moves no channel out of `SILENCED` or `OFF`
(no timed rule applies there). -/
theorem update_timed_inert (s : Alarm) :
    ((s.InteriorState = States.SILENCED ∨ s.InteriorState = States.OFF) →
      (update_timed_transitions s).InteriorState = s.InteriorState) ∧
    ((s.BikeState = States.SILENCED ∨ s.BikeState = States.OFF) →
      (update_timed_transitions s).BikeState = s.BikeState) := by
  rw [update_timed_transitions_eq]
  constructor <;> rintro (h | h) <;> simp [h]

/-- Lemma: `_update_timed_transitions` on a `TRIGGERED` Interior channel: silence
exactly when the alarm has sounded longer than `60 * MAXALARMTIME`. -/
theorem update_timed_interior_triggered (s : Alarm)
    (h : s.InteriorState = States.TRIGGERED) :
    (update_timed_transitions s).InteriorState =
      (if s.LoopTime - s.AlarmTime > 60 * MAXALARMTIME
        then States.SILENCED else States.TRIGGERED) := by
  rw [update_timed_transitions_eq]
  by_cases hc : s.LoopTime - s.AlarmTime > 60 * MAXALARMTIME <;> simp [h, hc]

/-- Lemma: `_update_timed_transitions` on a `TRIGGERED` Bike channel. -/
theorem update_timed_bike_triggered (s : Alarm)
    (h : s.BikeState = States.TRIGGERED) :
    (update_timed_transitions s).BikeState =
      (if s.LoopTime - s.AlarmTime > 60 * MAXALARMTIME
        then States.SILENCED else States.TRIGGERED) := by
  rw [update_timed_transitions_eq]
  by_cases hc : s.LoopTime - s.AlarmTime > 60 * MAXALARMTIME <;> simp [h, hc]

/-- Lemma: `_update_timed_transitions` writes only the channel states; all clocks
and the counter are preserved. -/
theorem update_timed_preserves (s : Alarm) :
    (update_timed_transitions s).AlarmTime = s.AlarmTime ∧
    (update_timed_transitions s).LoopTime = s.LoopTime ∧
    (update_timed_transitions s).InteriorTime = s.InteriorTime ∧
    (update_timed_transitions s).BikeTime = s.BikeTime ∧
    (update_timed_transitions s).LastButtonTime = s.LastButtonTime ∧
    (update_timed_transitions s).LoopCount = s.LoopCount := by
  rw [update_timed_transitions_eq]
  exact ⟨rfl, rfl, rfl, rfl, rfl, rfl⟩

/-- Lemma: `_check_interior` on an armed (`ON`) channel with movement detected
(PIR inactive-low): to `TRIGDELAY`, recording the shared `AlarmTime`. -/
theorem check_interior_on_trip (s : Alarm) (h : s.InteriorState = States.ON) :
    check_interior s false =
      { s with InteriorState := States.TRIGDELAY, AlarmTime := s.LoopTime } := by
  unfold check_interior
  rw [if_neg (by simp [h]), if_pos ⟨h, rfl⟩]
  simp [set_state_Interior_eq]

/-- Lemma: `_update_timed_transitions` keeps a `SILENCED` Interior channel
silenced. -/
theorem update_timed_interior_silenced (s : Alarm)
    (h : s.InteriorState = States.SILENCED) :
    (update_timed_transitions s).InteriorState = States.SILENCED := by
  rw [update_timed_transitions_eq]
  simp [h]

/-- Lemma: `_update_timed_transitions` keeps a `SILENCED` Bike channel silenced. -/
theorem update_timed_bike_silenced (s : Alarm)
    (h : s.BikeState = States.SILENCED) :
    (update_timed_transitions s).BikeState = States.SILENCED := by
  rw [update_timed_transitions_eq]
  simp [h]

/-- Claim C1, as stated, fails on the code: with both channels `TRIGGERED`
the combined buzzer weight is 32 and the combined horn weight is 2, and the
buzzer is toggled (fast blink), but the horn is NOT toggled — at a concrete
state with the horn off, one display cycle turns the buzzer on yet leaves
the horn off (shown in both the slow-blink cycle `LoopCount = 6` and the
fast-blink cycle `LoopCount = 1`), so the horn does not present fast-blink
behaviour. -/
theorem c1_horn_not_fastblink_counterexample :
    (StateConsts States.TRIGGERED).2.1 + (StateConsts States.TRIGGERED).2.1 = 32 ∧
    (StateConsts States.TRIGGERED).2.2 + (StateConsts States.TRIGGERED).2.2 = 2 ∧
    (display { s0 with InteriorState := States.TRIGGERED,
                       BikeState := States.TRIGGERED, LoopCount := 1 }).buzzer = true ∧
    (display { s0 with InteriorState := States.TRIGGERED,
                       BikeState := States.TRIGGERED, LoopCount := 1 }).horn = false ∧
    (display { s0 with InteriorState := States.TRIGGERED,
                       BikeState := States.TRIGGERED, LoopCount := 6 }).horn = false := by
  decide

/-- Claim C1 (amended): when both channels are `TRIGGERED` the mixer's
combined buzzer level is 32 and combined horn level is 2; on every cycle the
buzzer is toggled (fast-blink behaviour), but the horn is neither switched
nor toggled — level 2 falls in none of the off/on/slow/fast branches — so
the horn just retains its previous state. -/
theorem c1_both_triggered_mixer (s : Alarm)
    (hI : s.InteriorState = States.TRIGGERED)
    (hB : s.BikeState = States.TRIGGERED) :
    (StateConsts s.InteriorState).2.1 + (StateConsts s.BikeState).2.1 = 32 ∧
    (StateConsts s.InteriorState).2.2 + (StateConsts s.BikeState).2.2 = 2 ∧
    (display s).buzzer = !s.buzzer ∧
    (display s).horn = s.horn := by
  obtain ⟨aT, bS, bT, iS, iT, lBT, lT, lC, rP, bP, rl, bl, bz, hn⟩ := s
  simp only at hI hB
  subst hI hB
  by_cases h6 : lC % 6 = 0 <;>
    simp [display, display_lights, display_steady, display_blink, StateConsts, SLOWBLINK, FASTBLINK, LOUDENABLE, Nat.mod_one, h6]

theorem c1_both_triggered_mixer_witness :
    (display { s0 with InteriorState := States.TRIGGERED,
                       BikeState := States.TRIGGERED, LoopCount := 2,
                       horn := true }).buzzer = !false ∧
    (display { s0 with InteriorState := States.TRIGGERED,
                       BikeState := States.TRIGGERED, LoopCount := 2,
                       horn := true }).horn = true :=
  ⟨(c1_both_triggered_mixer _ rfl rfl).2.2.1,
   (c1_both_triggered_mixer _ rfl rfl).2.2.2⟩

/-- Claim C2, as stated, fails on the code: `STARTERROR` carries buzzer
weight 16, so with the other channel `OFF` the shared buzzer is toggled
every cycle — at a concrete state with the buzzer off, one display cycle
turns the buzzer on, i.e. the annunciation is audible, not visible-only. -/
theorem c2_starterror_buzzer_audible_counterexample :
    (StateConsts States.STARTERROR).2.1 = 16 ∧
    (display { s0 with InteriorState := States.STARTERROR,
                       LoopCount := 1 }).buzzer = true := by
  decide

/-- Claim C2 (amended): when a channel is in `STARTERROR` and the other
channel is `OFF`, the horn stays off, but the buzzer is toggled every cycle
(fast-blink — audible), and the channel's light is driven on every cycle
rather than blinking (this gpiozero port sets the LED on in the blink
branches instead of toggling it). Stated for both channels. -/
theorem c2_starterror_annunciation (s s' : Alarm)
    (hI : s.InteriorState = States.STARTERROR) (hB : s.BikeState = States.OFF)
    (hI' : s'.InteriorState = States.OFF) (hB' : s'.BikeState = States.STARTERROR) :
    ((display s).horn = false ∧ (display s).buzzer = !s.buzzer ∧
      (display s).red_led = true) ∧
    ((display s').horn = false ∧ (display s').buzzer = !s'.buzzer ∧
      (display s').blue_led = true) := by
  obtain ⟨aT, bS, bT, iS, iT, lBT, lT, lC, rP, bP, rl, bl, bz, hn⟩ := s
  obtain ⟨aT', bS', bT', iS', iT', lBT', lT', lC', rP', bP', rl', bl', bz', hn'⟩ := s'
  simp only at hI hB hI' hB'
  subst hI hB hI' hB'
  constructor
  · by_cases h6 : lC % 6 = 0 <;>
      simp [display, display_lights, display_steady, display_blink, StateConsts, SLOWBLINK, FASTBLINK, LOUDENABLE, Nat.mod_one, h6]
  · by_cases h6 : lC' % 6 = 0 <;>
      simp [display, display_lights, display_steady, display_blink, StateConsts, SLOWBLINK, FASTBLINK, LOUDENABLE, Nat.mod_one, h6]

theorem c2_starterror_annunciation_witness :
    ((display { s0 with InteriorState := States.STARTERROR, LoopCount := 2 }).horn = false ∧
      (display { s0 with InteriorState := States.STARTERROR, LoopCount := 2 }).buzzer = !false ∧
      (display { s0 with InteriorState := States.STARTERROR, LoopCount := 2 }).red_led = true) ∧
    ((display { s0 with BikeState := States.STARTERROR, LoopCount := 3 }).horn = false ∧
      (display { s0 with BikeState := States.STARTERROR, LoopCount := 3 }).buzzer = !false ∧
      (display { s0 with BikeState := States.STARTERROR, LoopCount := 3 }).blue_led = true) :=
  c2_starterror_annunciation _ _ rfl rfl rfl rfl

/-- Claim C3: a `TRIGGERED` channel moves to `SILENCED` in the timed update
exactly when the elapsed time since `AlarmTime` exceeds
`MAXALARMTIME` (2 min) × 60 s, and otherwise stays `TRIGGERED`; and a
`SILENCED` channel stays `SILENCED` through a full loop iteration as long
as its own button press does not register (the operator does not disarm). -/
theorem c3_auto_silence (s : Alarm) (now : ℚ) (inp : Inputs) :
    MAXALARMTIME = 2 ∧
    (s.InteriorState = States.TRIGGERED →
      (((update_timed_transitions s).InteriorState = States.SILENCED) ↔
        s.LoopTime - s.AlarmTime > 60 * MAXALARMTIME) ∧
      (¬ (s.LoopTime - s.AlarmTime > 60 * MAXALARMTIME) →
        (update_timed_transitions s).InteriorState = States.TRIGGERED)) ∧
    (s.BikeState = States.TRIGGERED →
      (((update_timed_transitions s).BikeState = States.SILENCED) ↔
        s.LoopTime - s.AlarmTime > 60 * MAXALARMTIME) ∧
      (¬ (s.LoopTime - s.AlarmTime > 60 * MAXALARMTIME) →
        (update_timed_transitions s).BikeState = States.TRIGGERED)) ∧
    (s.InteriorState = States.SILENCED →
      ¬(inp.red_button = true ∧ now - s.LastButtonTime > BUTTONDELAY) →
      (loop_step s now inp).InteriorState = States.SILENCED) ∧
    (s.BikeState = States.SILENCED →
      ¬(inp.blue_button = true ∧ now - s.LastButtonTime > BUTTONDELAY) →
      (loop_step s now inp).BikeState = States.SILENCED) := by
  refine ⟨rfl, ?_, ?_, ?_, ?_⟩
  · intro hI
    rw [update_timed_transitions_eq]
    by_cases hc : s.LoopTime - s.AlarmTime > 60 * MAXALARMTIME <;>
      simp [hI, hc]
  · intro hB
    rw [update_timed_transitions_eq]
    by_cases hc : s.LoopTime - s.AlarmTime > 60 * MAXALARMTIME <;>
      simp [hB, hc]
  · intro hI hbtn
    rw [loop_step_eq]
    have hcb := check_buttons_interior_of_not_red
      { s with
          LoopCount := alarm_loop_count_update s.InteriorState s.BikeState s.LoopCount,
          LoopTime := now }
      inp.red_button inp.blue_button hbtn
    have hIs : (check_bike_wire (check_buttons
        { s with
            LoopCount := alarm_loop_count_update s.InteriorState s.BikeState s.LoopCount,
            LoopTime := now }
        inp.red_button inp.blue_button) inp.bike_wire_fault).InteriorState =
        States.SILENCED := by
      rw [(check_bike_wire_frame (check_buttons
        { s with
            LoopCount := alarm_loop_count_update s.InteriorState s.BikeState s.LoopCount,
            LoopTime := now }
        inp.red_button inp.blue_button) inp.bike_wire_fault).1, hcb.1]
      exact hI
    have hci := check_interior_not_armed _ inp.pir_is_active
      (ne_of_eq_of_ne hIs (by decide)) (ne_of_eq_of_ne hIs (by decide))
    rw [(display_frame _).1, hci]
    exact update_timed_interior_silenced _ hIs
  · intro hB hbtn
    rw [loop_step_eq]
    have hcb := check_buttons_bike_of_not_blue
      { s with
          LoopCount := alarm_loop_count_update s.InteriorState s.BikeState s.LoopCount,
          LoopTime := now }
      inp.red_button inp.blue_button hbtn
    have hBs : (check_buttons
        { s with
            LoopCount := alarm_loop_count_update s.InteriorState s.BikeState s.LoopCount,
            LoopTime := now }
        inp.red_button inp.blue_button).BikeState = States.SILENCED := by
      rw [hcb.1]
      exact hB
    have hcw := check_bike_wire_not_armed (check_buttons
        { s with
            LoopCount := alarm_loop_count_update s.InteriorState s.BikeState s.LoopCount,
            LoopTime := now }
        inp.red_button inp.blue_button) inp.bike_wire_fault
      (ne_of_eq_of_ne hBs (by decide)) (ne_of_eq_of_ne hBs (by decide))
    rw [(display_frame _).2.1, hcw]
    refine update_timed_bike_silenced _ ?_
    rw [(check_interior_frame (check_buttons
        { s with
            LoopCount := alarm_loop_count_update s.InteriorState s.BikeState s.LoopCount,
            LoopTime := now }
        inp.red_button inp.blue_button) inp.pir_is_active).1]
    exact hBs

theorem c3_auto_silence_witness :
    (update_timed_transitions { s0 with InteriorState := States.TRIGGERED,
                                        LoopTime := 121 }).InteriorState = States.SILENCED ∧
    (loop_step { s0 with BikeState := States.SILENCED } 5
        { red_button := false, blue_button := false, pir_is_active := true,
          bike_wire_fault := false }).BikeState = States.SILENCED :=
  ⟨((c3_auto_silence { s0 with InteriorState := States.TRIGGERED, LoopTime := 121 } 0
      { red_button := false, blue_button := false, pir_is_active := true,
        bike_wire_fault := false }).2.1 rfl).1.mpr (by norm_num [s0, MAXALARMTIME]),
   (c3_auto_silence { s0 with BikeState := States.SILENCED } 5
      { red_button := false, blue_button := false, pir_is_active := true,
        bike_wire_fault := false }).2.2.2.2 rfl (by simp)⟩

/-- Claim C4, as stated, fails on the code: with no button involved at all,
a channel that has sat in `STARTERROR` for more than `ENTRYEXITDELAY`
seconds is moved to `ON` by the elapsed-time rule of
`_update_timed_transitions` — so `STARTERROR` is left to a state other than
`OFF` without any operator disarm. -/
theorem c4_starterror_times_out_counterexample :
    (update_timed_transitions { s0 with InteriorState := States.STARTERROR,
                                        LoopTime := 31 }).InteriorState = States.ON := by
  rw [update_timed_transitions_eq]
  norm_num [s0, ENTRYEXITDELAY]

/-- Claim C4 (amended): a channel in `STARTERROR` leaves that state in one
loop iteration only to `OFF` (exactly when its debounced button press
registers, the operator disarm) or to `ON` (exactly when no such press
registers and the elapsed time since `state_entry_time` exceeds
`ENTRYEXITDELAY`, the timed re-arm rule); no sensor event moves it anywhere
else. Interior channel in general; Bike channel with the red button up. -/
theorem c4_starterror_exit_paths (s : Alarm) (now : ℚ) (inp : Inputs) :
    (s.InteriorState = States.STARTERROR →
      ((loop_step s now inp).InteriorState = States.OFF ↔
        inp.red_button = true ∧ now - s.LastButtonTime > BUTTONDELAY) ∧
      ((loop_step s now inp).InteriorState = States.ON ↔
        ¬(inp.red_button = true ∧ now - s.LastButtonTime > BUTTONDELAY) ∧
          now - s.InteriorTime > ENTRYEXITDELAY) ∧
      ((loop_step s now inp).InteriorState = States.OFF ∨
        (loop_step s now inp).InteriorState = States.ON ∨
        (loop_step s now inp).InteriorState = States.STARTERROR)) ∧
    (inp.red_button = false → s.BikeState = States.STARTERROR →
      ((loop_step s now inp).BikeState = States.OFF ↔
        inp.blue_button = true ∧ now - s.LastButtonTime > BUTTONDELAY) ∧
      ((loop_step s now inp).BikeState = States.ON ↔
        ¬(inp.blue_button = true ∧ now - s.LastButtonTime > BUTTONDELAY) ∧
          now - s.BikeTime > ENTRYEXITDELAY) ∧
      ((loop_step s now inp).BikeState = States.OFF ∨
        (loop_step s now inp).BikeState = States.ON ∨
        (loop_step s now inp).BikeState = States.STARTERROR)) := by
  constructor
  · intro hI
    by_cases hreg : inp.red_button = true ∧ now - s.LastButtonTime > BUTTONDELAY
    · have hcb := check_buttons_red_registered
        { s with
            LoopCount := alarm_loop_count_update s.InteriorState s.BikeState s.LoopCount,
            LoopTime := now }
        inp.red_button inp.blue_button hreg.1 hreg.2
      have hIOFF : (check_buttons
          { s with
              LoopCount := alarm_loop_count_update s.InteriorState s.BikeState s.LoopCount,
              LoopTime := now }
          inp.red_button inp.blue_button).InteriorState = States.OFF := by
        rw [hcb.1]
        have hI' : ({ s with
            LoopCount := alarm_loop_count_update s.InteriorState s.BikeState s.LoopCount,
            LoopTime := now } : Alarm).InteriorState = States.STARTERROR := hI
        rw [hI']
        simp
      have hsp := sensors_preserve_interior (check_buttons
          { s with
              LoopCount := alarm_loop_count_update s.InteriorState s.BikeState s.LoopCount,
              LoopTime := now }
          inp.red_button inp.blue_button) inp.bike_wire_fault inp.pir_is_active
        (ne_of_eq_of_ne hIOFF (by decide)) (ne_of_eq_of_ne hIOFF (by decide))
      have hfin : (loop_step s now inp).InteriorState = States.OFF := by
        rw [loop_step_eq, (display_frame _).1,
          (update_timed_inert _).1 (Or.inr (by rw [hsp.1]; exact hIOFF)),
          hsp.1]
        exact hIOFF
      refine ⟨?_, ?_, Or.inl hfin⟩
      · rw [hfin]
        simp [hreg]
      · rw [hfin]
        simp [hreg]
    · have hcb := check_buttons_interior_of_not_red
        { s with
            LoopCount := alarm_loop_count_update s.InteriorState s.BikeState s.LoopCount,
            LoopTime := now }
        inp.red_button inp.blue_button hreg
      have hIS : (check_buttons
          { s with
              LoopCount := alarm_loop_count_update s.InteriorState s.BikeState s.LoopCount,
              LoopTime := now }
          inp.red_button inp.blue_button).InteriorState = States.STARTERROR := by
        rw [hcb.1]
        exact hI
      have hsp := sensors_preserve_interior (check_buttons
          { s with
              LoopCount := alarm_loop_count_update s.InteriorState s.BikeState s.LoopCount,
              LoopTime := now }
          inp.red_button inp.blue_button) inp.bike_wire_fault inp.pir_is_active
        (ne_of_eq_of_ne hIS (by decide)) (ne_of_eq_of_ne hIS (by decide))
      have hup := update_timed_interior_starterror _ (by rw [hsp.1]; exact hIS)
      rw [hsp.2.1, hcb.2, hsp.2.2] at hup
      have hXT : (check_buttons
          { s with
              LoopCount := alarm_loop_count_update s.InteriorState s.BikeState s.LoopCount,
              LoopTime := now }
          inp.red_button inp.blue_button).LoopTime = now :=
        (check_buttons_frame _ _ _).1
      rw [hXT] at hup
      have hfin : (loop_step s now inp).InteriorState =
          (if now - s.InteriorTime > ENTRYEXITDELAY
            then States.ON else States.STARTERROR) := by
        rw [loop_step_eq, (display_frame _).1]
        exact hup
      by_cases ht : now - s.InteriorTime > ENTRYEXITDELAY
      · rw [if_pos ht] at hfin
        exact ⟨by rw [hfin]; simp [hreg], by rw [hfin]; simp [hreg, ht],
          Or.inr (Or.inl hfin)⟩
      · rw [if_neg ht] at hfin
        exact ⟨by rw [hfin]; simp [hreg], by rw [hfin]; simp [ht],
          Or.inr (Or.inr hfin)⟩
  · intro hr hB
    by_cases hreg : inp.blue_button = true ∧ now - s.LastButtonTime > BUTTONDELAY
    · have hcb := check_buttons_blue_registered
        { s with
            LoopCount := alarm_loop_count_update s.InteriorState s.BikeState s.LoopCount,
            LoopTime := now }
        inp.blue_button hreg.1 hreg.2
      have hBOFF : (check_buttons
          { s with
              LoopCount := alarm_loop_count_update s.InteriorState s.BikeState s.LoopCount,
              LoopTime := now }
          false inp.blue_button).BikeState = States.OFF := by
        rw [hcb.1]
        have hB' : ({ s with
            LoopCount := alarm_loop_count_update s.InteriorState s.BikeState s.LoopCount,
            LoopTime := now } : Alarm).BikeState = States.STARTERROR := hB
        rw [hB']
        simp
      have hsp := sensors_preserve_bike (check_buttons
          { s with
              LoopCount := alarm_loop_count_update s.InteriorState s.BikeState s.LoopCount,
              LoopTime := now }
          false inp.blue_button) inp.bike_wire_fault inp.pir_is_active
        (ne_of_eq_of_ne hBOFF (by decide)) (ne_of_eq_of_ne hBOFF (by decide))
      have hfin : (loop_step s now inp).BikeState = States.OFF := by
        rw [loop_step_eq, hr, (display_frame _).2.1,
          (update_timed_inert _).2 (Or.inr (by rw [hsp.1]; exact hBOFF)),
          hsp.1]
        exact hBOFF
      refine ⟨?_, ?_, Or.inl hfin⟩
      · rw [hfin]
        simp [hreg]
      · rw [hfin]
        simp [hreg]
    · have hcb := check_buttons_bike_of_not_blue
        { s with
            LoopCount := alarm_loop_count_update s.InteriorState s.BikeState s.LoopCount,
            LoopTime := now }
        false inp.blue_button hreg
      have hBS : (check_buttons
          { s with
              LoopCount := alarm_loop_count_update s.InteriorState s.BikeState s.LoopCount,
              LoopTime := now }
          false inp.blue_button).BikeState = States.STARTERROR := by
        rw [hcb.1]
        exact hB
      have hsp := sensors_preserve_bike (check_buttons
          { s with
              LoopCount := alarm_loop_count_update s.InteriorState s.BikeState s.LoopCount,
              LoopTime := now }
          false inp.blue_button) inp.bike_wire_fault inp.pir_is_active
        (ne_of_eq_of_ne hBS (by decide)) (ne_of_eq_of_ne hBS (by decide))
      have hup := update_timed_bike_starterror _ (by rw [hsp.1]; exact hBS)
      rw [hsp.2.1, hcb.2, hsp.2.2] at hup
      have hXT : (check_buttons
          { s with
              LoopCount := alarm_loop_count_update s.InteriorState s.BikeState s.LoopCount,
              LoopTime := now }
          false inp.blue_button).LoopTime = now :=
        (check_buttons_frame _ _ _).1
      rw [hXT] at hup
      have hfin : (loop_step s now inp).BikeState =
          (if now - s.BikeTime > ENTRYEXITDELAY
            then States.ON else States.STARTERROR) := by
        rw [loop_step_eq, hr, (display_frame _).2.1]
        exact hup
      by_cases ht : now - s.BikeTime > ENTRYEXITDELAY
      · rw [if_pos ht] at hfin
        exact ⟨by rw [hfin]; simp [hreg], by rw [hfin]; simp [hreg, ht],
          Or.inr (Or.inl hfin)⟩
      · rw [if_neg ht] at hfin
        exact ⟨by rw [hfin]; simp [hreg], by rw [hfin]; simp [ht],
          Or.inr (Or.inr hfin)⟩

theorem c4_starterror_exit_paths_witness :
    (loop_step { s0 with InteriorState := States.STARTERROR } 31
        { red_button := false, blue_button := false, pir_is_active := true,
          bike_wire_fault := false }).InteriorState = States.ON ∧
    (loop_step { s0 with BikeState := States.STARTERROR } 31
        { red_button := false, blue_button := false, pir_is_active := true,
          bike_wire_fault := false }).BikeState = States.ON :=
  ⟨((c4_starterror_exit_paths { s0 with InteriorState := States.STARTERROR } 31
      { red_button := false, blue_button := false, pir_is_active := true,
        bike_wire_fault := false }).1 rfl).2.1.mpr
    ⟨by simp, by norm_num [s0, ENTRYEXITDELAY]⟩,
   ((c4_starterror_exit_paths { s0 with BikeState := States.STARTERROR } 31
      { red_button := false, blue_button := false, pir_is_active := true,
        bike_wire_fault := false }).2 rfl rfl).2.1.mpr
    ⟨by simp, by norm_num [s0, ENTRYEXITDELAY]⟩⟩

/-- Claim C5: both channels share the single `AlarmTime` field — a trip on
either channel overwrites it ((i) a Bike tamper fault on an armed channel
and (ii) an Interior PIR trip both write `AlarmTime := LoopTime`), so (iii)
a Bike trip while Interior is already `TRIGGERED` leaves Interior
`TRIGGERED` that cycle even if the original auto-silence deadline has
passed (the shared clock restarted at `now`), whereas (iv) without the Bike
trip the same cycle would have moved Interior to `SILENCED`. -/
theorem c5_shared_alarm_time (s : Alarm) (now : ℚ) (inp : Inputs) :
    (s.BikeState = States.ON →
      (check_bike_wire s true).AlarmTime = s.LoopTime) ∧
    (s.InteriorState = States.ON →
      (check_interior s false).AlarmTime = s.LoopTime) ∧
    (s.InteriorState = States.TRIGGERED → s.BikeState = States.ON →
      inp.red_button = false → inp.blue_button = false →
      inp.pir_is_active = true → inp.bike_wire_fault = true →
      now - s.AlarmTime > 60 * MAXALARMTIME →
      (loop_step s now inp).AlarmTime = now ∧
      (loop_step s now inp).BikeState = States.TRIGGERED ∧
      (loop_step s now inp).InteriorState = States.TRIGGERED) ∧
    (s.InteriorState = States.TRIGGERED →
      inp.red_button = false → inp.blue_button = false →
      inp.pir_is_active = true → inp.bike_wire_fault = false →
      now - s.AlarmTime > 60 * MAXALARMTIME →
      (loop_step s now inp).InteriorState = States.SILENCED) := by
  refine ⟨?_, ?_, ?_, ?_⟩
  · intro hB
    rw [check_bike_wire_on_fault s hB]
  · intro hI
    rw [check_interior_on_trip s hI]
  · intro hI hB hr hb hp hf _hd
    rw [loop_step_eq, hr, hb, hp, hf]
    set t0 : Alarm :=
      { s with
          LoopCount := alarm_loop_count_update s.InteriorState s.BikeState s.LoopCount,
          LoopTime := now } with ht0
    rw [check_buttons_no_press, check_bike_wire_on_fault t0 hB,
      check_interior_pir_ok]
    refine ⟨?_, ?_, ?_⟩
    · rw [(display_frame _).2.2.2.2.1, (update_timed_preserves _).1]
    · rw [(display_frame _).2.1,
        update_timed_bike_triggered
          { t0 with BikeState := States.TRIGGERED, AlarmTime := t0.LoopTime } rfl]
      norm_num [MAXALARMTIME]
    · rw [(display_frame _).1,
        update_timed_interior_triggered
          { t0 with BikeState := States.TRIGGERED, AlarmTime := t0.LoopTime } hI]
      norm_num [MAXALARMTIME]
  · intro hI hr hb hp hf hd
    rw [loop_step_eq, hr, hb, hp, hf, check_buttons_no_press,
      check_bike_wire_no_fault, check_interior_pir_ok]
    rw [(display_frame _).1,
      update_timed_interior_triggered
        { s with
            LoopCount := alarm_loop_count_update s.InteriorState s.BikeState s.LoopCount,
            LoopTime := now }
        hI]
    simp [hd]

theorem c5_shared_alarm_time_witness :
    (loop_step { s0 with InteriorState := States.TRIGGERED,
                         BikeState := States.ON } 125
        { red_button := false, blue_button := false, pir_is_active := true,
          bike_wire_fault := true }).InteriorState = States.TRIGGERED ∧
    (loop_step { s0 with InteriorState := States.TRIGGERED,
                         BikeState := States.ON } 125
        { red_button := false, blue_button := false, pir_is_active := true,
          bike_wire_fault := false }).InteriorState = States.SILENCED :=
  ⟨((c5_shared_alarm_time { s0 with InteriorState := States.TRIGGERED,
                                    BikeState := States.ON } 125
      { red_button := false, blue_button := false, pir_is_active := true,
        bike_wire_fault := true }).2.2.1 rfl rfl rfl rfl rfl rfl
      (by norm_num [s0, MAXALARMTIME])).2.2,
   (c5_shared_alarm_time { s0 with InteriorState := States.TRIGGERED,
                                   BikeState := States.ON } 125
      { red_button := false, blue_button := false, pir_is_active := true,
        bike_wire_fault := false }).2.2.2 rfl rfl rfl rfl rfl
      (by norm_num [s0, MAXALARMTIME])⟩

/-- Claim C6: a button press changes a channel's state only when more than
`BUTTONDELAY` (1 s) has passed on the shared debounce clock; within the
window `_check_buttons` is the identity; a registered red press moves the
shared clock to the current loop time and suppresses a same-cycle blue
press; and after a registered press, a second press within the window on
the next cycle (at time `t2`) changes nothing — one toggle total. -/
theorem c6_button_debounce (s : Alarm) (r b : Bool) (t2 : ℚ) (r2 b2 : Bool) :
    ((check_buttons s r b).InteriorState ≠ s.InteriorState →
      r = true ∧ s.LoopTime - s.LastButtonTime > BUTTONDELAY) ∧
    ((check_buttons s r b).BikeState ≠ s.BikeState →
      b = true ∧ s.LoopTime - s.LastButtonTime > BUTTONDELAY) ∧
    (s.LoopTime - s.LastButtonTime ≤ BUTTONDELAY →
      check_buttons s r b = s) ∧
    (r = true → s.LoopTime - s.LastButtonTime > BUTTONDELAY →
      (check_buttons s r b).LastButtonTime = s.LoopTime ∧
      (check_buttons s r b).BikeState = s.BikeState) ∧
    (r = true → s.LoopTime - s.LastButtonTime > BUTTONDELAY →
      t2 - s.LoopTime ≤ BUTTONDELAY →
      check_buttons { (check_buttons s r b) with LoopTime := t2 } r2 b2 =
        { (check_buttons s r b) with LoopTime := t2 }) := by
  refine ⟨?_, ?_, check_buttons_in_window s r b, ?_, ?_⟩
  · intro hne
    by_contra hc
    exact hne (check_buttons_interior_of_not_red s r b hc).1
  · intro hne
    by_contra hc
    exact hne (check_buttons_bike_of_not_blue s r b hc).1
  · intro hr ht
    exact ⟨(check_buttons_red_registered s r b hr ht).2.2.1,
      (check_buttons_red_registered s r b hr ht).2.2.2.1⟩
  · intro hr ht h2
    apply check_buttons_in_window
    show t2 - (check_buttons s r b).LastButtonTime ≤ BUTTONDELAY
    rw [(check_buttons_red_registered s r b hr ht).2.2.1]
    exact h2

theorem c6_button_debounce_witness :
    (check_buttons { s0 with LoopTime := 2 } true true).LastButtonTime = 2 ∧
    (check_buttons { s0 with LoopTime := 2 } true true).BikeState =
      ({ s0 with LoopTime := 2 } : Alarm).BikeState ∧
    check_buttons s0 true true = s0 ∧
    check_buttons
        { (check_buttons { s0 with LoopTime := 2 } true true) with LoopTime := 3 }
        true true =
      { (check_buttons { s0 with LoopTime := 2 } true true) with LoopTime := 3 } :=
  ⟨((c6_button_debounce { s0 with LoopTime := 2 } true true 3 true true).2.2.2.1
      rfl (by norm_num [s0, BUTTONDELAY])).1,
   ((c6_button_debounce { s0 with LoopTime := 2 } true true 3 true true).2.2.2.1
      rfl (by norm_num [s0, BUTTONDELAY])).2,
   (c6_button_debounce s0 true true 0 false false).2.2.1
      (by norm_num [s0, BUTTONDELAY]),
   (c6_button_debounce { s0 with LoopTime := 2 } true true 3 true true).2.2.2.2
      rfl (by norm_num [s0, BUTTONDELAY]) (by norm_num [s0, BUTTONDELAY])⟩

/-- Claim C7: `_check_bike_wire` changes the state only when the Bike
channel is in `{ON, STARTING}` and a fault is reported (otherwise it is the
identity on the whole state); from `STARTING` it goes to `STARTERROR`
without touching `AlarmTime`, and from `ON` it goes directly to `TRIGGERED`
(no `TRIGDELAY`) recording `AlarmTime = LoopTime`; the Interior channel is
never touched. -/
theorem c7_bike_tamper_check (s : Alarm) (fault : Bool) :
    (¬((s.BikeState = States.ON ∨ s.BikeState = States.STARTING) ∧ fault = true) →
      check_bike_wire s fault = s) ∧
    (s.BikeState = States.STARTING → fault = true →
      (check_bike_wire s fault).BikeState = States.STARTERROR ∧
      (check_bike_wire s fault).AlarmTime = s.AlarmTime) ∧
    (s.BikeState = States.ON → fault = true →
      (check_bike_wire s fault).BikeState = States.TRIGGERED ∧
      (check_bike_wire s fault).AlarmTime = s.LoopTime) ∧
    (check_bike_wire s fault).InteriorState = s.InteriorState := by
  refine ⟨?_, ?_, ?_, (check_bike_wire_frame s fault).1⟩
  · intro h
    unfold check_bike_wire
    rw [if_neg h]
  · intro h1 h2
    subst h2
    unfold check_bike_wire
    rw [if_pos ⟨Or.inr h1, rfl⟩, if_pos h1]
    constructor <;> simp [set_state_Bike_eq]
  · intro h1 h2
    subst h2
    rw [check_bike_wire_on_fault s h1]
    exact ⟨rfl, rfl⟩

theorem c7_bike_tamper_check_witness :
    check_bike_wire { s0 with BikeState := States.TRIGGERED } true =
      { s0 with BikeState := States.TRIGGERED } ∧
    (check_bike_wire { s0 with BikeState := States.STARTING } true).BikeState =
      States.STARTERROR ∧
    (check_bike_wire { s0 with BikeState := States.ON, LoopTime := 7 } true).BikeState =
      States.TRIGGERED ∧
    (check_bike_wire { s0 with BikeState := States.ON, LoopTime := 7 } true).AlarmTime = 7 :=
  ⟨(c7_bike_tamper_check { s0 with BikeState := States.TRIGGERED } true).1 (by simp),
   ((c7_bike_tamper_check { s0 with BikeState := States.STARTING } true).2.1 rfl rfl).1,
   ((c7_bike_tamper_check { s0 with BikeState := States.ON, LoopTime := 7 } true).2.2.1
      rfl rfl).1,
   ((c7_bike_tamper_check { s0 with BikeState := States.ON, LoopTime := 7 } true).2.2.1
      rfl rfl).2⟩

/-- Claim C8: whenever a channel is in `STARTING` or `STARTERROR` and the
elapsed time since its entry clock (recorded when the channel last entered
`STARTING` via `set_state`) exceeds `ENTRYEXITDELAY` (30 s), the timed
update moves it to `ON` that cycle. -/
theorem c8_grace_to_on (s : Alarm) :
    ENTRYEXITDELAY = 30 ∧
    ((s.InteriorState = States.STARTING ∨ s.InteriorState = States.STARTERROR) →
      s.LoopTime - s.InteriorTime > ENTRYEXITDELAY →
      (update_timed_transitions s).InteriorState = States.ON) ∧
    ((s.BikeState = States.STARTING ∨ s.BikeState = States.STARTERROR) →
      s.LoopTime - s.BikeTime > ENTRYEXITDELAY →
      (update_timed_transitions s).BikeState = States.ON) ∧
    (set_state s .Interior States.STARTING).InteriorTime = s.LoopTime ∧
    (set_state s .Bike States.STARTING).BikeTime = s.LoopTime := by
  refine ⟨rfl, ?_, ?_, by simp [set_state_Interior_eq], by simp [set_state_Bike_eq]⟩
  · intro h ht
    rw [update_timed_transitions_eq]
    rcases h with h | h <;> simp [h, ht]
  · intro h ht
    rw [update_timed_transitions_eq]
    rcases h with h | h <;> simp [h, ht]

theorem c8_grace_to_on_witness :
    (update_timed_transitions { s0 with InteriorState := States.STARTING,
                                        LoopTime := 31 }).InteriorState = States.ON ∧
    (update_timed_transitions { s0 with BikeState := States.STARTERROR,
                                        LoopTime := 31 }).BikeState = States.ON :=
  ⟨(c8_grace_to_on { s0 with InteriorState := States.STARTING, LoopTime := 31 }).2.1
      (Or.inl rfl) (by norm_num [s0, ENTRYEXITDELAY]),
   (c8_grace_to_on { s0 with BikeState := States.STARTERROR, LoopTime := 31 }).2.2.1
      (Or.inr rfl) (by norm_num [s0, ENTRYEXITDELAY])⟩

/-- Claim C9: a debounced (registered) button press on a channel in `OFF`
moves it to `STARTING`, recording the entry clock from the current loop
time — never directly to `ON` or `TRIGGERED`; in any other state a
registered press moves the channel to `OFF`. Interior via the red button,
Bike via the blue button (red up). -/
theorem c9_button_arms_from_off (s : Alarm) (r b : Bool) :
    (r = true → s.LoopTime - s.LastButtonTime > BUTTONDELAY →
      (s.InteriorState = States.OFF →
        (check_buttons s r b).InteriorState = States.STARTING ∧
        (check_buttons s r b).InteriorTime = s.LoopTime) ∧
      (s.InteriorState ≠ States.OFF →
        (check_buttons s r b).InteriorState = States.OFF)) ∧
    (r = false → b = true → s.LoopTime - s.LastButtonTime > BUTTONDELAY →
      (s.BikeState = States.OFF →
        (check_buttons s r b).BikeState = States.STARTING ∧
        (check_buttons s r b).BikeTime = s.LoopTime) ∧
      (s.BikeState ≠ States.OFF →
        (check_buttons s r b).BikeState = States.OFF)) := by
  constructor
  · intro hr ht
    have h := check_buttons_red_registered s r b hr ht
    constructor
    · intro hoff
      exact ⟨by rw [h.1, if_pos hoff], by rw [h.2.1, if_pos hoff]⟩
    · intro hnoff
      rw [h.1, if_neg hnoff]
  · intro hr hb ht
    subst hr
    have h := check_buttons_blue_registered s b hb ht
    constructor
    · intro hoff
      exact ⟨by rw [h.1, if_pos hoff], by rw [h.2.1, if_pos hoff]⟩
    · intro hnoff
      rw [h.1, if_neg hnoff]

theorem c9_button_arms_from_off_witness :
    (check_buttons { s0 with LoopTime := 2 } true false).InteriorState =
      States.STARTING ∧
    (check_buttons { s0 with LoopTime := 2 } true false).InteriorTime = 2 ∧
    (check_buttons { s0 with InteriorState := States.TRIGGERED, LoopTime := 2 }
        true false).InteriorState = States.OFF ∧
    (check_buttons { s0 with LoopTime := 2 } false true).BikeState =
      States.STARTING :=
  ⟨(((c9_button_arms_from_off { s0 with LoopTime := 2 } true false).1
      rfl (by norm_num [s0, BUTTONDELAY])).1 rfl).1,
   (((c9_button_arms_from_off { s0 with LoopTime := 2 } true false).1
      rfl (by norm_num [s0, BUTTONDELAY])).1 rfl).2,
   ((c9_button_arms_from_off { s0 with InteriorState := States.TRIGGERED, LoopTime := 2 }
      true false).1 rfl (by norm_num [s0, BUTTONDELAY])).2 (by decide),
   (((c9_button_arms_from_off { s0 with LoopTime := 2 } false true).2
      rfl rfl (by norm_num [s0, BUTTONDELAY])).1 rfl).1⟩

/-- Claim C10, as stated, fails on `alarm/alarm.py`: at a concrete iteration
with both channels `OFF` and `LoopCount = 5 ≤ 10000` the counter is
incremented to 6, not reset to 1 — the reset there additionally requires
`LoopCount > 10000`. -/
theorem c10_no_reset_at_small_count_counterexample :
    ({ s0 with LoopCount := 5 } : Alarm).InteriorState = States.OFF ∧
    ({ s0 with LoopCount := 5 } : Alarm).BikeState = States.OFF ∧
    (loop_step { s0 with LoopCount := 5 } 0
        { red_button := false, blue_button := false, pir_is_active := true,
          bike_wire_fault := false }).LoopCount = 6 := by
  refine ⟨rfl, rfl, ?_⟩
  rw [loop_step_eq, (display_frame _).2.2.2.2.2.2.2,
    (update_timed_preserves _).2.2.2.2.2,
    (check_interior_frame _ _).2.2.2.2.2,
    (check_bike_wire_frame _ _).2.2.2.2.2,
    (check_buttons_frame _ _ _).2.1]
  rfl

/-- Claim C10 (amended): in `alarm/alarm.py` each iteration sets the loop
counter per `alarm_loop_count_update`: it is reset to 1 only when both
channels are `OFF` AND the counter exceeds 10000, and incremented by one
otherwise (in particular it is incremented, not reset, on both-`OFF`
iterations with counter ≤ 10000); the `rvalarm/alarm.py` predecessor
behaves as the claim states, resetting to 1 on every both-`OFF`
iteration. -/
theorem c10_loop_counter_update (s : Alarm) (now : ℚ) (inp : Inputs)
    (interior bike : States) (count : ℕ) :
    (loop_step s now inp).LoopCount =
      alarm_loop_count_update s.InteriorState s.BikeState s.LoopCount ∧
    (s.InteriorState = States.OFF → s.BikeState = States.OFF →
      s.LoopCount ≤ 10000 →
      (loop_step s now inp).LoopCount = s.LoopCount + 1) ∧
    (interior = States.OFF → bike = States.OFF →
      rvalarm_loop_count_update interior bike count = 1) ∧
    (¬(interior = States.OFF ∧ bike = States.OFF) →
      rvalarm_loop_count_update interior bike count = count + 1) := by
  have hmain : (loop_step s now inp).LoopCount =
      alarm_loop_count_update s.InteriorState s.BikeState s.LoopCount := by
    rw [loop_step_eq, (display_frame _).2.2.2.2.2.2.2,
      (update_timed_preserves _).2.2.2.2.2,
      (check_interior_frame _ _).2.2.2.2.2,
      (check_bike_wire_frame _ _).2.2.2.2.2,
      (check_buttons_frame _ _ _).2.1]
  refine ⟨hmain, ?_, ?_, ?_⟩
  · intro h1 h2 h3
    rw [hmain]
    unfold alarm_loop_count_update
    rw [if_neg (fun hc => absurd hc.2.2 (not_lt.mpr h3))]
  · intro h1 h2
    unfold rvalarm_loop_count_update
    rw [if_pos ⟨h1, h2⟩]
  · intro h
    unfold rvalarm_loop_count_update
    rw [if_neg h]

theorem c10_loop_counter_update_witness :
    (loop_step { s0 with LoopCount := 7 } 0
        { red_button := false, blue_button := false, pir_is_active := true,
          bike_wire_fault := false }).LoopCount = 7 + 1 ∧
    rvalarm_loop_count_update States.OFF States.OFF 9 = 1 ∧
    rvalarm_loop_count_update States.ON States.OFF 9 = 9 + 1 :=
  ⟨(c10_loop_counter_update { s0 with LoopCount := 7 } 0
      { red_button := false, blue_button := false, pir_is_active := true,
        bike_wire_fault := false } States.OFF States.OFF 9).2.1
      rfl rfl (by norm_num),
   (c10_loop_counter_update s0 0
      { red_button := false, blue_button := false, pir_is_active := true,
        bike_wire_fault := false } States.OFF States.OFF 9).2.2.1 rfl rfl,
   (c10_loop_counter_update s0 0
      { red_button := false, blue_button := false, pir_is_active := true,
        bike_wire_fault := false } States.ON States.OFF 9).2.2.2 (by simp)⟩

end RVAlarm
